import Mathlib

set_option linter.unusedVariables false

/-!
Shallow embedding of the host orchestrator of `src/electron/main.js`:
credential verification (`verifyCredentials`, lines 608-797), port
allocation (`findAvailablePort`, lines 334-395), worker supervision
(`startPythonApi`, lines 402-553, and its stream handlers), the
`login` and `logout` IPC handlers (lines 800-909), and the startup
reset in `app.whenReady` (lines 1034-1049).

Asynchronous callbacks are modelled as explicit event lists folded over
a state; promise settlement uses first-settle-wins semantics
(`resolveWith`).  Machine strings are Lean `String`s; the JavaScript
`String.prototype.includes` and `String.prototype.startsWith` tests are
modelled character-exactly by `occursIn` and `leadsWith` below.
-/

/-- Character-list test: `pat` is an initial segment of `s`. -/
def charsLeadWith : List Char → List Char → Bool
  | [], _ => true
  | _ :: _, [] => false
  | p :: ps, c :: cs => p == c && charsLeadWith ps cs

/-- Character-list test: `pat` occurs contiguously somewhere in `s`. -/
def charsContain (pat : List Char) : List Char → Bool
  | [] => charsLeadWith pat []
  | c :: cs => charsLeadWith pat (c :: cs) || charsContain pat cs

/-- JavaScript `s.includes(pat)`. -/
def occursIn (pat s : String) : Bool := charsContain pat.data s.data

/-- JavaScript `s.startsWith(pat)`. -/
def leadsWith (pat s : String) : Bool := charsLeadWith pat.data s.data

/-! ### Credential verifier (`verifyCredentials`, main.js lines 608-797) -/

/-- One observable event during a verification run: a chunk on the
verification process stdout or stderr, the process `close` event with its
exit code (`none` models the JavaScript `null` code of a killed process),
or the 15-second timer firing. -/
inductive VEvent where
  | stdout (s : String)
  | stderr (s : String)
  | close (code : Option Int)
  | timeout
deriving DecidableEq

/-- State captured by the closures of `verifyCredentials`: the two output
accumulators `authOutput`/`authError`, the `authSuccess`/`authFailed`
flags, whether `clearTimeout(verifyTimeout)` has run, whether
`verifyProcess.kill()` has run, the promise settlement (first resolve
wins), and the `api-error` messages sent to the renderer. -/
structure VState where
  authOutput : String
  authError : String
  authSuccess : Bool
  authFailed : Bool
  timeoutCleared : Bool
  killed : Bool
  settled : Option Bool
  uiEvents : List String
deriving DecidableEq

/-- main.js line 689/758: the invalid-credentials message. -/
def vAuthFailMsg : String :=
  "Authentication failed: Invalid client ID, client secret, or tenant ID."

/-- main.js line 736: message for a killed process with no success marker. -/
def vInterruptedMsg : String := "Credential verification interrupted. Please try again."

/-- main.js line 760: generic verification-failed message. -/
def vFailedMsg : String :=
  "Credential verification failed. Please check your credentials and try again."

/-- main.js line 785: verification timed out message. -/
def vTimeoutMsg : String :=
  "Credential verification timed out. Please check your network connection and try again."

/-- main.js line 650: success markers recognised on the stdout stream. -/
def verifySuccessStdout (s : String) : Bool :=
  occursIn "Authentication successful" s || occursIn "Token acquired successfully" s

/-- main.js line 667: the success marker recognised on the stderr stream. -/
def verifySuccessStderr (s : String) : Bool :=
  occursIn "INFO:" s && occursIn "access token" s

/-- main.js lines 678-680: authentication-failure markers on stderr. -/
def verifyFailureStderr (s : String) : Bool :=
  occursIn "Authentication failed" s || occursIn "Invalid client" s || occursIn "AADSTS" s

/-- main.js lines 725-727 and 747-749: the combined-buffer success scan
used by the ambiguous branches of the `close` handler. -/
def scanCombined (st : VState) : Bool :=
  occursIn "Authentication successful" st.authOutput
    || occursIn "access token" st.authError
    || (occursIn "Token" st.authOutput && occursIn "success" st.authOutput)

/-- Net success scan of the killed-process (`code === null`) branch,
main.js lines 717-729. -/
def scanCloseNull (st : VState) : Bool :=
  verifySuccessStdout st.authOutput || scanCombined st

/-- main.js lines 774-776: the success scan of the timeout handler. -/
def scanTimeout (st : VState) : Bool :=
  verifySuccessStdout st.authOutput || occursIn "access token" st.authError

/-- Promise resolution: the first settlement wins, later calls are no-ops. -/
def resolveWith (st : VState) (b : Bool) : VState :=
  if st.settled.isSome then st else { st with settled := some b }

/-- Send an `api-error` message to the renderer, guarded by `mainWindow`. -/
def pushUiErr (st : VState) (mw : Bool) (m : String) : VState :=
  if mw then { st with uiEvents := st.uiEvents ++ [m] } else st

/-- One step of the verification run: the stdout handler (lines 644-659),
the stderr handler (lines 661-694), the close handler (lines 696-766) and
the timeout handler (lines 769-790) of `verifyCredentials`. -/
def stepVerify (mw : Bool) (st : VState) : VEvent → VState
  | VEvent.stdout s =>
    let st1 := { st with authOutput := st.authOutput ++ s }
    if verifySuccessStdout s then
      resolveWith { st1 with authSuccess := true, timeoutCleared := true, killed := true } true
    else st1
  | VEvent.stderr s =>
    let st1 := { st with authError := st.authError ++ s }
    if verifySuccessStderr s then
      resolveWith { st1 with authSuccess := true, timeoutCleared := true, killed := true } true
    else if verifyFailureStderr s then
      resolveWith
        (pushUiErr
          { st1 with authFailed := true, authSuccess := false,
                     timeoutCleared := true, killed := true } mw vAuthFailMsg) false
    else st1
  | VEvent.close code =>
    if st.authSuccess then resolveWith st true
    else if st.authFailed then resolveWith st false
    else if code = some 0 then resolveWith st true
    else if code = none then
      if verifySuccessStdout st.authOutput then resolveWith st true
      else if scanCombined st then resolveWith st true
      else resolveWith (pushUiErr st mw vInterruptedMsg) false
    else
      if scanCombined st then resolveWith st true
      else
        resolveWith
          (pushUiErr st mw
            (if occursIn "Authentication failed" st.authOutput
                || occursIn "Authentication failed" st.authError
             then vAuthFailMsg else vFailedMsg)) false
  | VEvent.timeout =>
    if st.timeoutCleared then st
    else if st.authSuccess || scanTimeout st then resolveWith st true
    else resolveWith (pushUiErr { st with killed := true } mw vTimeoutMsg) false

/-- Verifier state before any output has been observed. -/
def initVState : VState :=
  { authOutput := "", authError := "", authSuccess := false, authFailed := false,
    timeoutCleared := false, killed := false, settled := none, uiEvents := [] }

/-- Run a whole verification event trace. -/
def runVerify (mw : Bool) (events : List VEvent) : VState :=
  events.foldl (stepVerify mw) initVState

/-- Top level of `verifyCredentials`: when `findApiPath()` throws
(`apiPathOk = false`, main.js lines 596-600), the surrounding catch calls
`reject(error)` (line 794) and the promise is rejected; otherwise the
spawned process drives the event trace and the promise can only resolve. -/
def verifyCredentials (mw apiPathOk : Bool) (events : List VEvent) : Except Unit VState :=
  if apiPathOk then Except.ok (runVerify mw events) else Except.error ()

/-! ### Port allocator (`findAvailablePort`, main.js lines 334-395) -/

/-- The sequential scan of the `for` loop (lines 338-390): test `count`
consecutive ports starting at `startPort` against the bind probe `avail`,
returning the first available one.  The `failedPorts` set of the source
only prevents retrying a port inside one scan; since the loop visits each
port once, the scan semantics is first-available. -/
def scanPorts (avail : Nat → Bool) : Nat → Nat → Option Nat
  | _, 0 => none
  | startPort, n + 1 =>
    if avail startPort then some startPort else scanPorts avail (startPort + 1) n

/-- Outcome of one allocation pass over `[startPort, endPort]`. -/
inductive PortStep where
  | found (p : Nat)
  | recurse (s e : Nat)
deriving DecidableEq

/-- One pass of `findAvailablePort(startPort, endPort)`: scan the
inclusive range; on exhaustion the source recurses with
`findAvailablePort(endPort + 1, endPort + 100)` (line 394). -/
def findStep (avail : Nat → Bool) (startPort endPort : Nat) : PortStep :=
  match scanPorts avail startPort (endPort + 1 - startPort) with
  | some p => PortStep.found p
  | none => PortStep.recurse (endPort + 1) (endPort + 100)

/-- Fueled unfolding of the full recursion.  The source recursion is
unbounded (it never fails); the fuel only truncates the model. -/
def findAvailablePort (avail : Nat → Bool) : Nat → Nat → Nat → Option Nat
  | 0, _, _ => none
  | fuel + 1, startPort, endPort =>
    match scanPorts avail startPort (endPort + 1 - startPort) with
    | some p => some p
    | none => findAvailablePort avail fuel (endPort + 1) (endPort + 100)

/-! ### Persistent store and application-level state -/

/-- The three Graph credentials (main.js store schema, lines 16-27). -/
structure Credentials where
  clientId : String
  clientSecret : String
  tenantId : String
deriving DecidableEq

/-- The electron-store contents used by the orchestrator: the
`graphCredentials`, `isLoggedIn`, `apiPort` and `nextJsPort` keys. -/
structure Store where
  graphCredentials : Option Credentials
  isLoggedIn : Bool
  apiPort : Option Nat
  nextJsPort : Option Nat
deriving DecidableEq

/-- Renderer-bound IPC events (`api-ready`, `api-error`, `show-login`). -/
inductive UIEvent where
  | apiReady (port : Nat)
  | apiError (msg : String)
  | showLogin
deriving DecidableEq

/-- Process-level actions, in program order.  `spawnVerify` is the
transient verification process, which never occupies the worker-handle
slot `pythonProcess`; `killNextProc` is the Next.js dev server. -/
inductive ProcAction where
  | killProc (id : Nat)
  | spawnProc (id : Nat)
  | spawnVerify
  | killNextProc (id : Nat)
deriving DecidableEq

/-- The module-level mutable state of main.js: the worker handle
`pythonProcess`, the Next.js dev-server handle, the global `apiStarted`
and `apiPort` variables, whether `mainWindow` exists, and the store. -/
structure AppState where
  pythonProcess : Option Nat
  nextProcess : Option Nat
  apiStarted : Bool
  apiPort : Option Nat
  mainWindow : Bool
  store : Store
deriving DecidableEq

/-- Result of one orchestrator operation: the new state, the process
actions performed (in order) and the renderer events sent. -/
structure OpResult where
  state : AppState
  acts : List ProcAction
  evts : List UIEvent
deriving DecidableEq

/-- Effect of an action on the multiset of live worker processes.  Only
the worker-handle slot is tracked: the verification process and the
Next.js dev server are not worker handles. -/
def applyAct (live : List Nat) : ProcAction → List Nat
  | ProcAction.killProc i => live.erase i
  | ProcAction.spawnProc i => i :: live
  | ProcAction.spawnVerify => live
  | ProcAction.killNextProc _ => live

/-- Every prefix of the action list, applied to the initial live set,
leaves at most one worker live. -/
def liveBounded (live : List Nat) : List ProcAction → Bool
  | [] => decide (live.length ≤ 1)
  | a :: rest => decide (live.length ≤ 1) && liveBounded (applyAct live a) rest

/-! ### Worker supervisor (`startPythonApi`, main.js lines 402-553) -/

/-- `startPythonApi(port)`: kill any existing worker first (lines
405-409), then locate the API script (a throw lands in the catch of
lines 544-552 after `findApiPath` itself reported, lines 596-599), then
require stored credentials (lines 416-424), then spawn the worker. -/
def startPythonApi (st : AppState) (newId : Nat) (apiPathOk : Bool) (port : Nat) : OpResult :=
  let killStep : AppState × List ProcAction :=
    match st.pythonProcess with
    | some old => ({ st with pythonProcess := none }, [ProcAction.killProc old])
    | none => (st, [])
  let st1 := killStep.1
  let a1 := killStep.2
  if apiPathOk then
    match st1.store.graphCredentials with
    | none =>
      ⟨st1, a1,
        if st1.mainWindow then [UIEvent.apiError "No credentials found. Please log in again."]
        else []⟩
    | some _ =>
      ⟨{ st1 with pythonProcess := some newId }, a1 ++ [ProcAction.spawnProc newId], []⟩
  else
    ⟨st1, a1,
      if st1.mainWindow then
        [UIEvent.apiError "Could not locate the API module. Please check your installation.",
         UIEvent.apiError "Failed to start API: Could not locate API api.py file"]
      else []⟩

/-- State captured by the closures of `startPythonApi` over the worker
process streams: the local `apiStarted` flag and the `apiErrors` list. -/
structure WState where
  apiStarted : Bool
  apiErrors : List String
deriving DecidableEq

/-- Events observable from the running worker process. -/
inductive WEvent where
  | stdout (s : String)
  | stderr (s : String)
  | closeEv (code : Option Int)
deriving DecidableEq

/-- main.js line 472: the error line pushed on a stdout auth failure. -/
def authErrPushMsg : String := "Authentication failed: Invalid credentials"

/-- main.js line 475: the renderer message for a stdout auth failure. -/
def authErrUiMsg : String :=
  "Authentication failed: Invalid client ID, client secret, or tenant ID."

/-- Exit-code rendering of the JavaScript template `${code}`. -/
def codeText : Option Int → String
  | none => "null"
  | some c => toString c

/-- One step of the worker supervisor: the stdout handler (lines
454-478), the stderr handler (lines 481-508) and the close handler
(lines 511-530) of `startPythonApi`. -/
def stepWorker (mw : Bool) (port : Nat) (st : WState) : WEvent → WState × List UIEvent
  | WEvent.stdout s =>
    let r1 : WState × List UIEvent :=
      if occursIn "Uvicorn running" s || occursIn "Application startup complete" s then
        ({ st with apiStarted := true }, if mw then [UIEvent.apiReady port] else [])
      else (st, [])
    if occursIn "Authentication failed" s || occursIn "Invalid client" s then
      ({ r1.1 with apiErrors := r1.1.apiErrors ++ [authErrPushMsg] },
       r1.2 ++ (if mw then [UIEvent.apiError authErrUiMsg] else []))
    else r1
  | WEvent.stderr s =>
    if leadsWith "INFO:" s then
      if occursIn "Application startup complete" s || occursIn "Uvicorn running" s then
        ({ st with apiStarted := true }, if mw then [UIEvent.apiReady port] else [])
      else (st, [])
    else if occursIn "WARNING:" s then (st, [])
    else
      let st1 := { st with apiErrors := st.apiErrors ++ [s] }
      if occursIn "Error" s || occursIn "Exception" s || occursIn "Failed" s then
        (st1, if mw then [UIEvent.apiError ("API Error: " ++ s)] else [])
      else (st1, [])
  | WEvent.closeEv code =>
    if st.apiStarted = false ∧ code ≠ some 0 then
      (st,
        if mw then
          [UIEvent.apiError
            (if st.apiErrors.length > 0 then
              "API failed to start: " ++ String.intercalate ", " st.apiErrors
            else "API process exited with code " ++ codeText code)]
        else [])
    else (st, [])

/-! ### Login, logout and startup (main.js lines 800-909, 1034-1049) -/

/-- Result shape of the `login` IPC handler. -/
structure LoginResult where
  success : Bool
  message : Option String
deriving DecidableEq

/-- Result shape of the `logout` IPC handler. -/
structure LogoutResult where
  success : Bool
deriving DecidableEq

/-- main.js line 810. -/
def requiredMsg : String := "All fields are required"

/-- main.js line 809: a missing or empty field is falsy. -/
def credsValid (c : Credentials) : Bool :=
  !(c.clientId == "") && !(c.clientSecret == "") && !(c.tenantId == "")

/-- The `login` IPC handler (lines 800-878).  `vo` is the settlement of
the awaited `verifyCredentials` promise: `Except.error` is a rejection
(which happens before the verification process is spawned), `Except.ok b`
a resolution to `b`.  `portToUse` is the port found by
`findAvailablePort(8000)` and `newId` the handle of the worker spawned by
`startPythonApi`. -/
def login (st : AppState) (creds : Credentials) (vo : Except Unit Bool)
    (portToUse newId : Nat) (apiPathOk : Bool) : OpResult × LoginResult :=
  if credsValid creds then
    let killStep : AppState × List ProcAction :=
      match st.pythonProcess with
      | some old => ({ st with pythonProcess := none }, [ProcAction.killProc old])
      | none => (st, [])
    let st1 := killStep.1
    let a1 := killStep.2
    match vo with
    | Except.error _ =>
      (⟨st1, a1, []⟩,
       ⟨false, some "An error occurred during credential verification. Please try again."⟩)
    | Except.ok false =>
      (⟨st1, a1 ++ [ProcAction.spawnVerify], []⟩, ⟨false, some "Invalid credentials"⟩)
    | Except.ok true =>
      let st2 := { st1 with store :=
        { st1.store with graphCredentials := some creds, isLoggedIn := true } }
      let r3 := startPythonApi st2 newId apiPathOk portToUse
      let st4 := { r3.state with
        store := { r3.state.store with apiPort := some portToUse },
        apiPort := some portToUse }
      (⟨st4, a1 ++ [ProcAction.spawnVerify] ++ r3.acts, r3.evts⟩, ⟨true, none⟩)
  else
    (⟨st, [], []⟩, ⟨false, some requiredMsg⟩)

/-- The `logout` IPC handler (lines 881-909): clear the stored
credentials and flag, kill and null the worker if live (resetting
`apiStarted` and the global `apiPort`), kill the dev server in
development, send `show-login`, return success. -/
def logout (st : AppState) (isDev : Bool) : OpResult × LogoutResult :=
  let st1 := { st with store := { st.store with graphCredentials := none, isLoggedIn := false } }
  let workerStep : AppState × List ProcAction :=
    match st1.pythonProcess with
    | some old =>
      ({ st1 with pythonProcess := none, apiStarted := false, apiPort := none },
       [ProcAction.killProc old])
    | none => (st1, [])
  let st2 := workerStep.1
  let nextStep : AppState × List ProcAction :=
    if isDev then
      match st2.nextProcess with
      | some nid => ({ st2 with nextProcess := none }, [ProcAction.killNextProc nid])
      | none => (st2, [])
    else (st2, [])
  let st3 := nextStep.1
  (⟨st3, workerStep.2 ++ nextStep.2,
    if st3.mainWindow then [UIEvent.showLogin] else []⟩, ⟨true⟩)

/-- The `app.whenReady` startup reset (lines 1034-1045): force
`isLoggedIn := false`, delete the stored credentials, and kill any
lingering worker process. -/
def whenReadyStartup (st : AppState) : OpResult :=
  let st1 := { st with store := { st.store with isLoggedIn := false, graphCredentials := none } }
  match st1.pythonProcess with
  | some old => ⟨{ st1 with pythonProcess := none }, [ProcAction.killProc old], []⟩
  | none => ⟨st1, [], []⟩

/-! ### Helper lemmas about the verifier -/

/-- The promise is settled after any `resolveWith`. -/
theorem resolveWith_isSome (st : VState) (b : Bool) :
    (resolveWith st b).settled.isSome = true := by
  unfold resolveWith
  split
  · assumption
  · simp

/-- Clearing the verification timer only ever happens together with a
settlement, so a cleared timer implies a settled promise. -/
theorem stepVerify_inv (mw : Bool) (st : VState) (e : VEvent)
    (h : st.timeoutCleared = true → st.settled.isSome = true) :
    (stepVerify mw st e).timeoutCleared = true → (stepVerify mw st e).settled.isSome = true := by
  cases e <;> dsimp only [stepVerify] <;> split_ifs <;>
    intro htc <;>
    first
      | exact resolveWith_isSome _ _
      | exact h htc

/-- The cleared-timer invariant is preserved along any event trace. -/
theorem foldl_stepVerify_inv (mw : Bool) (events : List VEvent) :
    ∀ st : VState, (st.timeoutCleared = true → st.settled.isSome = true) →
      ((events.foldl (stepVerify mw) st).timeoutCleared = true →
        (events.foldl (stepVerify mw) st).settled.isSome = true) := by
  induction events with
  | nil => intro st h; exact h
  | cons e rest ih => intro st h; exact ih _ (stepVerify_inv mw st e h)

/-- If the timer has not been cleared, the timeout handler settles the
promise; if it has been cleared, the promise is already settled. -/
theorem stepVerify_timeout_settles (mw : Bool) (st : VState)
    (h : st.timeoutCleared = true → st.settled.isSome = true) :
    (stepVerify mw st VEvent.timeout).settled.isSome = true := by
  dsimp only [stepVerify]
  split_ifs with h1 h2
  · exact h h1
  · exact resolveWith_isSome _ _
  · exact resolveWith_isSome _ _

/-- C1 (amended): when the worker entrypoint is located, the verifier
never rejects and its promise is settled by the time the 15-second timer
fires, for every event trace; when locating the entrypoint throws, the
promise is rejected instead of resolving. -/
theorem verify_settles_by_timeout_or_rejects (mw : Bool) (events : List VEvent) :
    (∃ vst, verifyCredentials mw true (events ++ [VEvent.timeout]) = Except.ok vst
        ∧ vst.settled.isSome = true)
    ∧ verifyCredentials mw false events = Except.error () := by
  constructor
  · refine ⟨runVerify mw (events ++ [VEvent.timeout]), rfl, ?_⟩
    have hrw : runVerify mw (events ++ [VEvent.timeout])
        = stepVerify mw (runVerify mw events) VEvent.timeout := by
      simp [runVerify, List.foldl_append]
    rw [hrw]
    exact stepVerify_timeout_settles mw _
      (foldl_stepVerify_inv mw events initVState (by intro h; simp [initVState] at h))
  · rfl

/-- C1 (counterexample): with the worker entrypoint missing,
`findApiPath()` throws and `verifyCredentials` rejects its promise
(main.js line 794), refuting the claim that it always resolves to a
boolean. -/
theorem verify_reject_cex : verifyCredentials true false [] = Except.error () := rfl

/-- C3: a success marker arriving on either stream — the stdout markers
of main.js line 650, or the stderr marker of line 667 — settles the
still-pending promise at `true` in that very step, kills the
verification process, and clears the timer; this holds whatever else the
chunk contains, so it takes priority over every other resolution rule. -/
theorem verify_success_marker_immediate (mw : Bool) (st : VState) (s t : String)
    (h0 : st.settled = none)
    (h1 : verifySuccessStdout s = true) (h2 : verifySuccessStderr t = true) :
    ((stepVerify mw st (VEvent.stdout s)).settled = some true
      ∧ (stepVerify mw st (VEvent.stdout s)).killed = true
      ∧ (stepVerify mw st (VEvent.stdout s)).timeoutCleared = true)
    ∧ ((stepVerify mw st (VEvent.stderr t)).settled = some true
      ∧ (stepVerify mw st (VEvent.stderr t)).killed = true
      ∧ (stepVerify mw st (VEvent.stderr t)).timeoutCleared = true) := by
  constructor
  · dsimp only [stepVerify]
    rw [h1]
    simp [resolveWith, h0]
  · dsimp only [stepVerify]
    rw [h2]
    simp [resolveWith, h0]

/-- C3 witness at the concrete markers of the source. -/
theorem verify_success_marker_immediate_instance :
    initVState.settled = none
    ∧ verifySuccessStdout "Authentication successful" = true
    ∧ verifySuccessStderr "INFO:httpx acquired access token" = true
    ∧ (((stepVerify true initVState (VEvent.stdout "Authentication successful")).settled = some true
        ∧ (stepVerify true initVState (VEvent.stdout "Authentication successful")).killed = true
        ∧ (stepVerify true initVState (VEvent.stdout "Authentication successful")).timeoutCleared = true)
      ∧ ((stepVerify true initVState (VEvent.stderr "INFO:httpx acquired access token")).settled = some true
        ∧ (stepVerify true initVState (VEvent.stderr "INFO:httpx acquired access token")).killed = true
        ∧ (stepVerify true initVState (VEvent.stderr "INFO:httpx acquired access token")).timeoutCleared = true)) :=
  ⟨rfl, by decide, by decide,
    verify_success_marker_immediate true initVState
      "Authentication successful" "INFO:httpx acquired access token" rfl (by decide) (by decide)⟩

/-- C6 (amended): with no marker seen (`authSuccess` and `authFailed`
both false) and the promise pending, each ambiguous ending — kill
(`close null`), nonzero exit, or timeout with the timer still armed —
settles the promise at exactly the result of scanning the buffered
output for success phrases; when the scan fails, the promise resolves
`false` and an error is reported: the interrupted message for a killed
process, the timed-out message (plus a process kill) for the timeout,
and for a nonzero exit the generic failure message unless the buffered
output contains the authentication-failed phrase, in which case the
specific invalid-credentials message is sent instead. -/
theorem verify_ambiguous_fallback (st : VState) (c : Int)
    (h0 : st.settled = none) (h1 : st.authSuccess = false) (h2 : st.authFailed = false)
    (hc : c ≠ 0) (ht : st.timeoutCleared = false) :
    ((stepVerify true st (VEvent.close none)).settled = some (scanCloseNull st)
      ∧ (scanCloseNull st = false →
          (stepVerify true st (VEvent.close none)).uiEvents = st.uiEvents ++ [vInterruptedMsg]))
    ∧ ((stepVerify true st (VEvent.close (some c))).settled = some (scanCombined st)
      ∧ (scanCombined st = false →
          (stepVerify true st (VEvent.close (some c))).uiEvents = st.uiEvents ++
            [if occursIn "Authentication failed" st.authOutput
                || occursIn "Authentication failed" st.authError
             then vAuthFailMsg else vFailedMsg]))
    ∧ ((stepVerify true st VEvent.timeout).settled = some (st.authSuccess || scanTimeout st)
      ∧ ((st.authSuccess || scanTimeout st) = false →
          (stepVerify true st VEvent.timeout).uiEvents = st.uiEvents ++ [vTimeoutMsg]
          ∧ (stepVerify true st VEvent.timeout).killed = true)) := by
  refine ⟨⟨?_, ?_⟩, ⟨?_, ?_⟩, ?_, ?_⟩
  · dsimp only [stepVerify]
    rw [h1, h2]
    by_cases hv : verifySuccessStdout st.authOutput = true
    · simp [hv, scanCloseNull, resolveWith, h0]
    · rw [Bool.not_eq_true] at hv
      by_cases hcm : scanCombined st = true
      · simp [hv, hcm, scanCloseNull, resolveWith, h0]
      · rw [Bool.not_eq_true] at hcm
        simp [hv, hcm, scanCloseNull, resolveWith, pushUiErr, h0]
  · intro hsc
    dsimp only [stepVerify]
    rw [h1, h2]
    rw [scanCloseNull, Bool.or_eq_false_iff] at hsc
    simp [hsc.1, hsc.2, resolveWith, pushUiErr, h0]
  · dsimp only [stepVerify]
    rw [h1, h2]
    have : (some c = some 0) = False := by simp [hc]
    by_cases hcm : scanCombined st = true
    · simp [this, hcm, resolveWith, h0]
    · rw [Bool.not_eq_true] at hcm
      simp [this, hcm, resolveWith, pushUiErr, h0]
  · intro hsc
    dsimp only [stepVerify]
    rw [h1, h2]
    have : (some c = some 0) = False := by simp [hc]
    simp [this, hsc, resolveWith, pushUiErr, h0]
  · dsimp only [stepVerify]
    rw [ht, h1]
    by_cases hts : scanTimeout st = true
    · simp [hts, resolveWith, h0]
    · rw [Bool.not_eq_true] at hts
      simp [hts, resolveWith, pushUiErr, h0]
  · intro hsc
    rw [h1, Bool.false_or] at hsc
    dsimp only [stepVerify]
    rw [ht, h1]
    simp [hsc, resolveWith, pushUiErr, h0]

/-- C6 witness at the pending initial state with exit code 1. -/
theorem verify_ambiguous_fallback_instance :
    initVState.settled = none ∧ initVState.authSuccess = false
    ∧ initVState.authFailed = false ∧ (1 : Int) ≠ 0 ∧ initVState.timeoutCleared = false
    ∧ (((stepVerify true initVState (VEvent.close none)).settled = some (scanCloseNull initVState)
        ∧ (scanCloseNull initVState = false →
            (stepVerify true initVState (VEvent.close none)).uiEvents =
              initVState.uiEvents ++ [vInterruptedMsg]))
      ∧ ((stepVerify true initVState (VEvent.close (some 1))).settled = some (scanCombined initVState)
        ∧ (scanCombined initVState = false →
            (stepVerify true initVState (VEvent.close (some 1))).uiEvents = initVState.uiEvents ++
              [if occursIn "Authentication failed" initVState.authOutput
                  || occursIn "Authentication failed" initVState.authError
               then vAuthFailMsg else vFailedMsg]))
      ∧ ((stepVerify true initVState VEvent.timeout).settled =
            some (initVState.authSuccess || scanTimeout initVState)
        ∧ ((initVState.authSuccess || scanTimeout initVState) = false →
            (stepVerify true initVState VEvent.timeout).uiEvents =
              initVState.uiEvents ++ [vTimeoutMsg]
            ∧ (stepVerify true initVState VEvent.timeout).killed = true))) :=
  ⟨rfl, rfl, rfl, by decide, rfl,
    verify_ambiguous_fallback initVState 1 rfl rfl rfl (by decide) rfl⟩

/-- C6 (counterexample): the chunks "Authentication f" and "ailed" carry
no marker individually, yet their concatenation in the stderr buffer
makes the nonzero-exit fallback report the specific invalid-credentials
message rather than the generic verification-failed or timed-out one,
refuting the claim that the no-success fallback always reports a generic
error. -/
theorem verify_nonzero_exit_specific_error_cex :
    (runVerify true [VEvent.stderr "Authentication f", VEvent.stderr "ailed",
        VEvent.close (some 1)]).settled = some false
    ∧ (runVerify true [VEvent.stderr "Authentication f", VEvent.stderr "ailed",
        VEvent.close (some 1)]).uiEvents = [vAuthFailMsg]
    ∧ vAuthFailMsg ≠ vFailedMsg ∧ vAuthFailMsg ≠ vTimeoutMsg
    ∧ vAuthFailMsg ≠ vInterruptedMsg := by
  refine ⟨by decide, by decide, by decide, by decide, by decide⟩

/-! ### Port allocator theorems -/

/-- A scan over ports that all fail the bind probe finds nothing. -/
theorem scanPorts_all_fail (avail : Nat → Bool) :
    ∀ (n s : Nat), (List.range' s n).all (fun p => !avail p) = true →
      scanPorts avail s n = none := by
  intro n
  induction n with
  | zero => intro s _; rfl
  | succ k ih =>
    intro s h
    rw [List.range'_succ, List.all_cons, Bool.and_eq_true] at h
    have hs : avail s = false := by
      have := h.1
      rwa [Bool.not_eq_true'] at this
    dsimp only [scanPorts]
    rw [hs]
    exact ih (s + 1) h.2

/-- C2 (amended): when every port of the inclusive range
`[startPort, endPort]` fails the bind probe, the allocator does not fail
but recurses into the next range `endPort+1 .. endPort+100` — a fixed
100-port window rather than an equally sized one — both as a single pass
(`findStep`) and inside the full recursion (`findAvailablePort`). -/
theorem find_port_exhausted_recurses (avail : Nat → Bool) (s e fuel : Nat)
    (h : (List.range' s (e + 1 - s)).all (fun p => !avail p) = true) :
    findStep avail s e = PortStep.recurse (e + 1) (e + 100)
    ∧ findAvailablePort avail (fuel + 1) s e = findAvailablePort avail fuel (e + 1) (e + 100) := by
  have hs := scanPorts_all_fail avail (e + 1 - s) s h
  constructor
  · unfold findStep
    rw [hs]
  · show (match scanPorts avail s (e + 1 - s) with
          | some p => some p
          | none => findAvailablePort avail fuel (e + 1) (e + 100))
        = findAvailablePort avail fuel (e + 1) (e + 100)
    rw [hs]

/-- C2 witness: the default call `findAvailablePort(8000)` scans
`[8000, 8100]`; with every bind failing it recurses into `8101 .. 8200`. -/
theorem find_port_exhausted_recurses_instance :
    ((List.range' 8000 (8100 + 1 - 8000)).all (fun p => !(fun _ => false) p) = true)
    ∧ (findStep (fun _ => false) 8000 8100 = PortStep.recurse 8101 8200
      ∧ findAvailablePort (fun _ => false) 1 8000 8100
          = findAvailablePort (fun _ => false) 0 8101 8200) :=
  ⟨by decide, find_port_exhausted_recurses (fun _ => false) 8000 8100 0 (by decide)⟩

/-- C2 (counterexample): exhausting the range `[10, 20]` recurses into
`21 .. 120`, not into the claimed `end+1 .. end+101`, and the new range
(100 ports) is not equally sized to the exhausted one (11 ports). -/
theorem find_port_next_range_cex :
    findStep (fun _ => false) 10 20 = PortStep.recurse 21 120
    ∧ PortStep.recurse 21 120 ≠ PortStep.recurse 21 121
    ∧ (120 - 21 + 1 : Nat) ≠ (20 - 10 + 1 : Nat) := by
  refine ⟨by decide, by decide, by decide⟩

/-! ### Worker supervisor theorems -/

/-- C5: when the worker closes with a non-zero (or null) exit code
before any ready marker set `apiStarted`, the close handler sends the
renderer exactly one `api-error` event: the comma-join of the collected
error lines prefixed "API failed to start: " when any were collected,
and otherwise the exit-code message; the supervisor state is untouched. -/
theorem worker_exit_before_ready_error (st : WState) (port : Nat) (code : Option Int)
    (h1 : st.apiStarted = false) (h2 : code ≠ some 0) :
    stepWorker true port st (WEvent.closeEv code) =
      (st, [UIEvent.apiError
        (if st.apiErrors.length > 0 then
          "API failed to start: " ++ String.intercalate ", " st.apiErrors
        else "API process exited with code " ++ codeText code)]) := by
  dsimp only [stepWorker]
  rw [if_pos ⟨h1, h2⟩]
  simp

/-- C5 witness: an unready worker with one collected error line exits
with code 1, and the aggregated message is sent. -/
theorem worker_exit_before_ready_error_instance :
    (⟨false, ["ModuleNotFoundError: No module named uvicorn"]⟩ : WState).apiStarted = false
    ∧ (some 1 : Option Int) ≠ some 0
    ∧ stepWorker true 8000 ⟨false, ["ModuleNotFoundError: No module named uvicorn"]⟩
        (WEvent.closeEv (some 1)) =
      (⟨false, ["ModuleNotFoundError: No module named uvicorn"]⟩,
       [UIEvent.apiError "API failed to start: ModuleNotFoundError: No module named uvicorn"]) :=
  ⟨rfl, by decide, by
    have h := worker_exit_before_ready_error
      ⟨false, ["ModuleNotFoundError: No module named uvicorn"]⟩ 8000 (some 1) rfl (by decide)
    exact h.trans (by decide)⟩

/-- C7: a stderr chunk of informational level (starting with "INFO:") is
treated as a log line — it is never added to the collected error lines
and never produces an `api-error` event — while it is still scanned for
the ready markers, which set `apiStarted` and emit `api-ready`.  The
step is characterised exactly. -/
theorem stderr_info_not_error (st : WState) (port : Nat) (mw : Bool) (s : String)
    (h : leadsWith "INFO:" s = true) :
    stepWorker mw port st (WEvent.stderr s) =
      ({ st with apiStarted := st.apiStarted
          || (occursIn "Application startup complete" s || occursIn "Uvicorn running" s) },
       if (occursIn "Application startup complete" s || occursIn "Uvicorn running" s) && mw
       then [UIEvent.apiReady port] else []) := by
  cases hm : (occursIn "Application startup complete" s || occursIn "Uvicorn running" s) <;>
    simp [stepWorker, h, hm]

/-- C7 witness at the fixture line of the specification. -/
theorem stderr_info_not_error_instance :
    leadsWith "INFO:" "INFO: 127.0.0.1 - GET /health" = true
    ∧ stepWorker true 8000 ⟨false, []⟩ (WEvent.stderr "INFO: 127.0.0.1 - GET /health") =
      ({ apiStarted := false
            || (occursIn "Application startup complete" "INFO: 127.0.0.1 - GET /health"
                || occursIn "Uvicorn running" "INFO: 127.0.0.1 - GET /health"),
         apiErrors := [] },
       if (occursIn "Application startup complete" "INFO: 127.0.0.1 - GET /health"
            || occursIn "Uvicorn running" "INFO: 127.0.0.1 - GET /health") && true
       then [UIEvent.apiReady 8000] else []) :=
  ⟨by decide, stderr_info_not_error ⟨false, []⟩ 8000 true "INFO: 127.0.0.1 - GET /health" (by decide)⟩

/-! ### Single-instance discipline, login validation, logout, startup -/

/-- Killing the only live worker leaves the live set empty. -/
theorem applyAct_kill_self (old : Nat) :
    applyAct [old] (ProcAction.killProc old) = [] := by
  simp [applyAct]

/-- C4: with a worker already live, `startPythonApi` first kills the old
handle (its action list begins with that kill), and the `login` handler
does the same before running verification; along every prefix of the
actions either performs, never more than one worker handle is live.  The
transient verification process never occupies the handle slot. -/
theorem worker_single_instance (st : AppState) (old newId port portToUse : Nat)
    (apiPathOk : Bool) (creds : Credentials) (vo : Except Unit Bool)
    (h : st.pythonProcess = some old) :
    ((startPythonApi st newId apiPathOk port).acts.take 1 = [ProcAction.killProc old]
      ∧ liveBounded [old] (startPythonApi st newId apiPathOk port).acts = true)
    ∧ liveBounded [old] (login st creds vo portToUse newId apiPathOk).1.acts = true
    ∧ (credsValid creds = true →
        (login st creds vo portToUse newId apiPathOk).1.acts.take 1 = [ProcAction.killProc old]) := by
  have hb1 : liveBounded [old] [ProcAction.killProc old] = true := by
    simp [liveBounded, applyAct_kill_self]
  have hb2 : ∀ n, liveBounded [old] [ProcAction.killProc old, ProcAction.spawnProc n] = true := by
    intro n
    simp [liveBounded, applyAct_kill_self, applyAct]
  have hb3 : liveBounded [old] [ProcAction.killProc old, ProcAction.spawnVerify] = true := by
    simp [liveBounded, applyAct_kill_self, applyAct]
  have hb4 : ∀ n, liveBounded [old]
      [ProcAction.killProc old, ProcAction.spawnVerify, ProcAction.spawnProc n] = true := by
    intro n
    simp [liveBounded, applyAct_kill_self, applyAct]
  refine ⟨?_, ?_, ?_⟩
  · cases hap : apiPathOk <;> cases hg : st.store.graphCredentials <;>
      simp_all [startPythonApi, h, hb1, hb2]
  · cases hv : credsValid creds
    · simp [login, hv, liveBounded]
    · cases vo with
      | error e => simp [login, hv, h, hb1]
      | ok b =>
        cases b
        · simp [login, hv, h, hb3]
        · cases hap : apiPathOk <;>
            simp_all [login, startPythonApi, h, hb3, hb4]
  · intro hv
    cases vo with
    | error e => simp [login, hv, h]
    | ok b =>
      cases b
      · simp [login, hv, h]
      · cases hap : apiPathOk <;> simp [login, startPythonApi, hv, h, hap]

/-- Application state with one live worker, used as concrete instance. -/
def appWithWorker : AppState :=
  { pythonProcess := some 1, nextProcess := none, apiStarted := true,
    apiPort := some 8000, mainWindow := true,
    store := { graphCredentials := some ⟨"id", "secret", "tenant"⟩, isLoggedIn := true,
               apiPort := some 8000, nextJsPort := none } }

/-- C4 witness: starting over a live worker handle 1 kills it first. -/
theorem worker_single_instance_instance :
    appWithWorker.pythonProcess = some 1
    ∧ (((startPythonApi appWithWorker 2 true 8000).acts.take 1 = [ProcAction.killProc 1]
        ∧ liveBounded [1] (startPythonApi appWithWorker 2 true 8000).acts = true)
      ∧ liveBounded [1]
          (login appWithWorker ⟨"id", "secret", "tenant"⟩ (Except.ok true) 8000 2 true).1.acts = true
      ∧ (credsValid ⟨"id", "secret", "tenant"⟩ = true →
          (login appWithWorker ⟨"id", "secret", "tenant"⟩ (Except.ok true) 8000 2 true).1.acts.take 1
            = [ProcAction.killProc 1])) :=
  ⟨rfl, worker_single_instance appWithWorker 1 2 8000 8000 true
    ⟨"id", "secret", "tenant"⟩ (Except.ok true) rfl⟩

/-- C8: the `app.whenReady` startup reset forces the persisted session
to logged-out — `isLoggedIn` is set to `false` and the stored
credentials are deleted — and leaves no worker handle live, whatever
state the previous run persisted. -/
theorem startup_forces_logout (st : AppState) :
    (whenReadyStartup st).state.store.isLoggedIn = false
    ∧ (whenReadyStartup st).state.store.graphCredentials = none
    ∧ (whenReadyStartup st).state.pythonProcess = none := by
  cases hp : st.pythonProcess <;> simp [whenReadyStartup, hp]

/-- C9: `logout` always resolves `{success: true}`, deletes the stored
credentials, clears the logged-in flag, nulls the worker handle, and its
process actions are exactly a kill of the worker when one was live
(plus, in development, a kill of the dev server). -/
theorem logout_clears_session (st : AppState) (isDev : Bool) :
    (logout st isDev).2.success = true
    ∧ (logout st isDev).1.state.store.graphCredentials = none
    ∧ (logout st isDev).1.state.store.isLoggedIn = false
    ∧ (logout st isDev).1.state.pythonProcess = none
    ∧ (logout st isDev).1.acts =
        (match st.pythonProcess with
          | some old => [ProcAction.killProc old]
          | none => []) ++
        (if isDev then
          (match st.nextProcess with
            | some nid => [ProcAction.killNextProc nid]
            | none => [])
        else []) := by
  cases hp : st.pythonProcess <;> cases hn : st.nextProcess <;> cases isDev <;>
    simp [logout, hp, hn]

/-- C10: a login request with any missing or empty credential field is
rejected immediately with `{success: false, message: "All fields are
required"}`: the state (store and worker handle) is returned unchanged,
no process is killed or spawned, and no verification run is started. -/
theorem login_rejects_missing_fields (st : AppState) (creds : Credentials)
    (vo : Except Unit Bool) (portToUse newId : Nat) (apiPathOk : Bool)
    (h : credsValid creds = false) :
    login st creds vo portToUse newId apiPathOk =
      (⟨st, [], []⟩, ⟨false, some requiredMsg⟩) := by
  simp [login, h]

/-- C10 witness: an empty clientId over a state with a live worker. -/
theorem login_rejects_missing_fields_instance :
    credsValid ⟨"", "secret", "tenant"⟩ = false
    ∧ login appWithWorker ⟨"", "secret", "tenant"⟩ (Except.ok true) 8000 2 true =
        (⟨appWithWorker, [], []⟩, ⟨false, some requiredMsg⟩) :=
  ⟨rfl, login_rejects_missing_fields appWithWorker ⟨"", "secret", "tenant"⟩
    (Except.ok true) 8000 2 true rfl⟩
